import Mathlib

/-!
Verification development for the AI-Doctor triage pipeline
(services/api): safety guardrails, red-flag detection, JSON
extraction/repair, quality gate, retry policy and endpoint fallback.

Python semantics conventions used throughout:
* strings are modelled by Lean `String` / `List Char`;
* Python `str.strip()` removes the whitespace characters
  space, tab, newline, carriage return, vertical tab and form feed
  from both ends (`pyStrip`);
* Python `str.lower()` is per-character ASCII lowering (`pyLower`,
  all inputs of interest are ASCII);
* Python `needle in haystack` is list-infix on the character lists
  (`pyIn`).
-/

namespace AiDoctor

/-- Python whitespace (the characters stripped by `str.strip()` and
matched by the regex class `\s` on ASCII text). -/
def pyWs (c : Char) : Bool :=
  c = ' ' || c = '\t' || c = '\n' || c = '\r' || c = '\x0b' || c = '\x0c'

/-- Python `str.strip()` on a character list. -/
def pyStripList (l : List Char) : List Char :=
  ((l.dropWhile pyWs).reverse.dropWhile pyWs).reverse

/-- Python `str.strip()`. -/
def pyStrip (s : String) : String := ⟨pyStripList s.data⟩

/-- Python `str.lower()` (ASCII). -/
def pyLower (s : String) : String := ⟨s.data.map Char.toLower⟩

/-- Python `needle in haystack` for strings: substring containment. -/
def pyIn (needle haystack : String) : Bool :=
  decide (needle.data <:+: haystack.data)

/-- Python `" ".join(l)`. -/
def pyJoinSpace : List String → String
  | [] => ""
  | [s] => s
  | s :: rest => s ++ " " ++ pyJoinSpace rest

/-- Lexicographic comparison on the underlying character lists: this is
exactly Python's `<=` on strings (code-point lexicographic). -/
def strDataLe (a b : String) : Prop := a.data ≤ b.data

instance : DecidableRel strDataLe := fun a b =>
  inferInstanceAs (Decidable (a.data ≤ b.data))

instance : IsTotal String strDataLe := ⟨fun a b => le_total a.data b.data⟩

instance : IsTrans String strDataLe := ⟨fun _ _ _ h₁ h₂ => le_trans h₁ h₂⟩

/-- Python `sorted(list(set(l)))`: the sorted enumeration of the distinct
elements of `l`. -/
def pySortedSet (l : List String) : List String :=
  List.insertionSort strDataLe l.dedup

/-!
## `app/safety/red_flags.py` — early-exit red-flag detection

`detect_red_flags` checks the lowercased, stripped text for self-harm and
emergency-medical substrings and returns the sorted, deduplicated matches.
-/

/-- `self_harm_terms` from `detect_red_flags` in `red_flags.py`. -/
def self_harm_terms : List String :=
  ["hurt myself", "kill myself", "suicide", "suicidal", "self harm",
   "self-harm", "end my life", "want to die", "don\x27t want to live"]

/-- `emergency_terms` from `detect_red_flags` in `red_flags.py`. -/
def emergency_terms : List String :=
  ["chest pain", "severe chest pain", "pressure in chest",
   "shortness of breath", "difficulty breathing", "trouble breathing",
   "cold sweat", "cold sweats", "fainting", "passed out",
   "loss of consciousness", "coughing blood", "severe bleeding"]

/-- Result dictionary of `detect_red_flags`. -/
structure DetectResult where
  is_self_harm : Bool
  is_emergency_medical : Bool
  matched_terms : List String
deriving DecidableEq, Repr

/-- `detect_red_flags` from `red_flags.py`: case-insensitive substring
matching of the configured phrases over the lowercased, stripped text. -/
def detect_red_flags (text : String) : DetectResult :=
  let t := pyStrip (pyLower text)
  let matched := (self_harm_terms ++ emergency_terms).filter (fun p => pyIn p t)
  { is_self_harm := self_harm_terms.any (fun p => pyIn p t)
    is_emergency_medical := emergency_terms.any (fun p => pyIn p t)
    matched_terms := pySortedSet matched }

/-!
## A small regular-expression engine

`red_flag_rules.py` compiles a fixed table of case-insensitive regular
expressions.  We embed them with a standard Brzozowski-derivative matcher
over an AST of the exact combinators the table uses (literal characters,
character classes, concatenation, alternation, Kleene star, option).
-/

/-- Regular-expression AST.  A character class carries its membership
predicate. -/
inductive RE where
  | void : RE
  | eps : RE
  | cls (p : Char → Bool) : RE
  | cat (a b : RE) : RE
  | alt (a b : RE) : RE
  | star (a : RE) : RE

/-- Does the language of `r` contain the empty word? -/
def RE.nullable : RE → Bool
  | .void => false
  | .eps => true
  | .cls _ => false
  | .cat a b => a.nullable && b.nullable
  | .alt a b => a.nullable || b.nullable
  | .star _ => true

/-- Smart concatenation (simplifies the `void`/`eps` units). -/
def RE.scat : RE → RE → RE
  | .void, _ => .void
  | _, .void => .void
  | .eps, b => b
  | a, .eps => a
  | a, b => .cat a b

/-- Smart alternation (simplifies the `void` unit). -/
def RE.salt : RE → RE → RE
  | .void, b => b
  | a, .void => a
  | a, b => .alt a b

/-- Brzozowski derivative of `r` with respect to character `c`. -/
def RE.deriv : RE → Char → RE
  | .void, _ => .void
  | .eps, _ => .void
  | .cls p, c => if p c then .eps else .void
  | .cat a b, c =>
      if a.nullable then RE.salt (RE.scat (a.deriv c) b) (b.deriv c)
      else RE.scat (a.deriv c) b
  | .alt a b, c => RE.salt (a.deriv c) (b.deriv c)
  | .star a, c => RE.scat (a.deriv c) (.star a)

/-- Does `r` match the whole word `s`? -/
def RE.accepts (r : RE) (s : List Char) : Bool :=
  (s.foldl RE.deriv r).nullable

/-- Any single character (used to turn whole-word matching into
`re.search`-style scanning). -/
def RE.anyc : RE := .cls fun _ => true

/-- `re.search`: does `r` match some substring of `s`? -/
def reSearch (r : RE) (s : List Char) : Bool :=
  RE.accepts (.cat (.star RE.anyc) (.cat r (.star RE.anyc))) s

/-- A case-insensitive literal character (the table is compiled with
`re.I`; all its literals are lower case). -/
def RE.lit (c : Char) : RE := .cls fun x => x.toLower = c

/-- A case-insensitive literal word. -/
def RE.word (s : String) : RE :=
  s.data.foldr (fun c r => .cat (RE.lit c) r) .eps

/-- The regex class `\s` (Python whitespace, ASCII). -/
def RE.ws : RE := .cls pyWs

/-- `\s+`. -/
def RE.wsPlus : RE := .cat RE.ws (.star RE.ws)

/-- `r?`. -/
def RE.opt (r : RE) : RE := .alt r .eps

/-- `.` without `re.DOTALL`: any character except newline. -/
def RE.dotc : RE := .cls fun c => c ≠ '\n'

/-!
## `app/safety/red_flag_rules.py` — keyword and pattern rules

The module builds a flat lower-cased keyword list `_ALL_KEYWORDS` from the
phrase groups and a label map `_LABEL_BY_KEY`.  Every listed phrase is
already lower case, so each key equals its phrase and each label equals
its key; we therefore list the keywords once and use them as their own
labels, exactly as the Python tables do.
-/

/-- The phrase groups `_CHEST ++ _BREATHING ++ _COLD_SWEAT_CHEST ++
_UNCONSCIOUS ++ _STROKE ++ _BLEEDING ++ _SUICIDE_SELF_HARM ++
_OVERDOSE_POISONING`, flattened in source order (`_ALL_KEYWORDS`). -/
def all_keywords : List String :=
  [ -- _CHEST
   "chest pain", "severe chest pain", "pressure in chest",
   "chest pressure", "pain in chest", "crushing chest",
   -- _BREATHING
   "shortness of breath", "difficulty breathing", "trouble breathing",
   "cannot breathe", "can\x27t breathe", "can not breathe",
   -- _COLD_SWEAT_CHEST
   "cold sweat", "cold sweats", "sweating and chest", "sweat and chest",
   -- _UNCONSCIOUS
   "fainting", "passed out", "loss of consciousness", "unconscious",
   "collapse", "collapsed",
   -- _STROKE
   "face droop", "arm weakness", "slurred speech", "drooping face",
   "weakness in arm",
   -- _BLEEDING
   "severe bleeding", "coughing blood", "vomiting blood",
   "heavy bleeding", "bleeding heavily",
   -- _SUICIDE_SELF_HARM
   "suicidal thoughts", "suicidal thought", "self-harm", "self harm",
   "hurt myself", "kill myself", "want to die", "end my life",
   -- _OVERDOSE_POISONING
   "overdose", "overdosed", "poisoning", "poisoned"]

/-- The compiled pattern table `_PATTERNS` of `red_flag_rules.py`:
each regular expression (compiled with `re.I`) together with its
human-readable label. -/
def red_flag_patterns : List (RE × String) :=
  [ -- chest\s+pain
   (.cat (RE.word "chest") (.cat RE.wsPlus (RE.word "pain")), "chest pain"),
   -- pressure\s+in\s+(?:my\s+)?chest
   (.cat (RE.word "pressure") (.cat RE.wsPlus (.cat (RE.word "in")
      (.cat RE.wsPlus (.cat (RE.opt (.cat (RE.word "my") RE.wsPlus))
        (RE.word "chest"))))), "pressure in chest"),
   -- shortness\s+of\s+breath
   (.cat (RE.word "shortness") (.cat RE.wsPlus (.cat (RE.word "of")
      (.cat RE.wsPlus (RE.word "breath")))), "shortness of breath"),
   -- difficult(y|ies)\s+breathing
   (.cat (RE.word "difficult") (.cat (.alt (RE.word "y") (RE.word "ies"))
      (.cat RE.wsPlus (RE.word "breathing"))), "difficulty breathing"),
   -- trouble\s+breathing
   (.cat (RE.word "trouble") (.cat RE.wsPlus (RE.word "breathing")),
    "trouble breathing"),
   -- can'?t\s+breathe
   (.cat (RE.word "can") (.cat (RE.opt (RE.lit '\x27')) (.cat (RE.lit 't')
      (.cat RE.wsPlus (RE.word "breathe")))), "trouble breathing"),
   -- cold\s+sweat(s)?
   (.cat (RE.word "cold") (.cat RE.wsPlus (.cat (RE.word "sweat")
      (RE.opt (RE.lit 's')))), "cold sweat(s)"),
   -- sweat(ing)?\s+.*chest|chest.*sweat
   (.alt (.cat (RE.word "sweat") (.cat (RE.opt (RE.word "ing"))
        (.cat RE.wsPlus (.cat (.star RE.dotc) (RE.word "chest")))))
      (.cat (RE.word "chest") (.cat (.star RE.dotc) (RE.word "sweat"))),
    "sweating + chest pain"),
   -- passed\s+out
   (.cat (RE.word "passed") (.cat RE.wsPlus (RE.word "out")), "passed out"),
   -- loss\s+of\s+consciousness
   (.cat (RE.word "loss") (.cat RE.wsPlus (.cat (RE.word "of")
      (.cat RE.wsPlus (RE.word "consciousness")))), "loss of consciousness"),
   -- face\s+droop|droop(ing)?\s+face
   (.alt (.cat (RE.word "face") (.cat RE.wsPlus (RE.word "droop")))
      (.cat (RE.word "droop") (.cat (RE.opt (RE.word "ing"))
        (.cat RE.wsPlus (RE.word "face")))), "face droop"),
   -- arm\s+weakness|weakness\s+in\s+arm
   (.alt (.cat (RE.word "arm") (.cat RE.wsPlus (RE.word "weakness")))
      (.cat (RE.word "weakness") (.cat RE.wsPlus (.cat (RE.word "in")
        (.cat RE.wsPlus (RE.word "arm"))))), "arm weakness"),
   -- slurred\s+speech
   (.cat (RE.word "slurred") (.cat RE.wsPlus (RE.word "speech")),
    "slurred speech"),
   -- severe\s+bleeding
   (.cat (RE.word "severe") (.cat RE.wsPlus (RE.word "bleeding")),
    "severe bleeding"),
   -- coughing\s+blood|vomiting\s+blood
   (.alt (.cat (RE.word "coughing") (.cat RE.wsPlus (RE.word "blood")))
      (.cat (RE.word "vomiting") (.cat RE.wsPlus (RE.word "blood"))),
    "coughing/vomiting blood"),
   -- suicidal\s+thoughts?
   (.cat (RE.word "suicidal") (.cat RE.wsPlus (.cat (RE.word "thought")
      (RE.opt (RE.lit 's')))), "suicidal thoughts"),
   -- self[\s\-]harm
   (.cat (RE.word "self") (.cat (.cls fun c => pyWs c || c = '-')
      (RE.word "harm")), "self-harm"),
   -- overdose(d)?
   (.cat (RE.word "overdose") (RE.opt (RE.lit 'd')), "overdose"),
   -- poison(ed|ing)?
   (.cat (RE.word "poison") (RE.opt (.alt (RE.word "ed") (RE.word "ing"))),
    "poisoning")]

/-- The named tuple returned by `check_red_flags`. -/
structure RedFlagMatch where
  hit : Bool
  matched_terms : List String
deriving DecidableEq, Repr

/-- Append a label unless it was already collected — the `seen` set /
`matched` list discipline of `check_red_flags`. -/
def dedupAppend (acc : List String) (label : String) : List String :=
  if label ∈ acc then acc else acc ++ [label]

/-- `check_red_flags` from `red_flag_rules.py`: keyword substring pass
over the lowercased stripped text, then the pattern pass (searching both
the raw and the lowercased text), collecting labels first-match-first
without duplicates.  `hit` is true iff anything matched. -/
def check_red_flags (text : String) : RedFlagMatch :=
  if pyStrip text = "" then ⟨false, []⟩
  else
    let lower := pyStrip (pyLower text)
    let kwMatched := all_keywords.foldl
      (fun acc kw => if pyIn kw lower then dedupAppend acc kw else acc) []
    let matched := red_flag_patterns.foldl
      (fun acc pr =>
        if reSearch pr.1 text.data || reSearch pr.1 lower.data then
          dedupAppend acc pr.2
        else acc)
      kwMatched
    ⟨decide (0 < matched.length), matched⟩

/-!
## `app/llm/clinical_flow.py` — data model and quality gate
-/

/-- `RiskLevel = Literal["EMERGENCY", "URGENT", "ROUTINE", "SELF_CARE"]`. -/
inductive RiskLevel where
  | EMERGENCY | URGENT | ROUTINE | SELF_CARE
deriving DecidableEq, Repr

/-- `Citation`: one citation from RAG. -/
structure Citation where
  source : String
  url : String
  quote : String
deriving DecidableEq, Repr

/-- `FinalAssessmentResponse`: the strict JSON schema for the final
assessment. -/
structure FinalAssessmentResponse where
  risk_level : RiskLevel
  summary : List String
  possible_causes : List String
  home_care : List String
  when_to_seek_care : List String
  red_flags : List String
  sources_query : List String
  citations : List Citation
deriving DecidableEq, Repr

/-- The generic-filler marker phrase rejected by `_is_substantive`. -/
def GENERIC_FILLER_MARKER : String := "general guidance provided"

/-- `_is_substantive` from `clinical_flow.py`: quality check — no generic
filler in the joined, lowercased summary, at least 2 possible causes and
at least 3 home-care items. -/
def _is_substantive (resp : FinalAssessmentResponse) : Bool :=
  let summary_text := pyLower (pyJoinSpace resp.summary)
  if pyIn GENERIC_FILLER_MARKER summary_text then false
  else if resp.possible_causes.length < 2 then false
  else if resp.home_care.length < 3 then false
  else true

/-!
## `app/safety/policy.py` — guardrail policy
-/

/-- `EMERGENCY_DISCLAIMER` from `policy.py`. -/
def EMERGENCY_DISCLAIMER : String :=
  "This may be a medical emergency. Please call emergency services " ++
  "(e.g. 911 / your local emergency number) or go to the nearest emergency department immediately. " ++
  "This system cannot provide emergency care."

/-- `EMERGENCY_OVERRIDE_SUMMARY` from `policy.py`. -/
def EMERGENCY_OVERRIDE_SUMMARY : List String :=
  ["Your symptoms may indicate a medical emergency.",
   "Seek emergency care immediately."]

/-- `EMERGENCY_OVERRIDE_WHEN_TO_SEEK` from `policy.py`. -/
def EMERGENCY_OVERRIDE_WHEN_TO_SEEK : List String :=
  ["Call emergency services (911) now or go to the nearest emergency department.",
   "Do not drive yourself if you feel faint or short of breath."]

/-- Python `list(dict.fromkeys(l))`: deduplicate keeping the first
occurrence of each element, order preserved. -/
def pyDictFromKeys (l : List String) : List String :=
  l.foldl dedupAppend []

/-- `GuardrailResult` from `policy.py`. -/
structure GuardrailResult where
  assessment : FinalAssessmentResponse
  emergency_message : Option String
  matched_terms : List String
deriving DecidableEq, Repr

/-- `apply_guardrails` from `policy.py`: re-run `check_red_flags` on the
literal user text; on no hit return the model result unchanged, and on a
hit return a field-level override forcing EMERGENCY with the fixed
summary and when-to-seek-care content and the deduplicated union of
matched terms and model red flags. -/
def apply_guardrails (user_text : String)
    (model_result : FinalAssessmentResponse) : GuardrailResult :=
  let r := check_red_flags user_text
  if r.hit = false then
    { assessment := model_result, emergency_message := none, matched_terms := [] }
  else
    let overridden : FinalAssessmentResponse :=
      { model_result with
        risk_level := .EMERGENCY
        summary := EMERGENCY_OVERRIDE_SUMMARY
        when_to_seek_care := EMERGENCY_OVERRIDE_WHEN_TO_SEEK
        red_flags := pyDictFromKeys (r.matched_terms ++ model_result.red_flags) }
    { assessment := overridden
      emergency_message := some EMERGENCY_DISCLAIMER
      matched_terms := r.matched_terms }

/-!
## `app/llm/nova_client.py` — JSON extraction and the repair protocol

The fence regex `re.search(r"\x60\x60\x60(?:json)?\s*\n?(.*?)\x60\x60\x60", text,
re.DOTALL | re.IGNORECASE)` is embedded as a deterministic scanner with
Python's leftmost-match semantics: at the first opening triple backtick
from which a closing triple backtick can still be found, the group is the
text strictly between (after greedily consuming an optional `json` tag
and any whitespace, which by `\s*\n?` never hides a closing fence since
backticks are neither whitespace nor letters).
-/

/-- Does the character list start with three backticks? -/
def ticks3 : List Char → Bool
  | '\x60' :: '\x60' :: '\x60' :: _ => true
  | _ => false

/-- Does the character list start with `json` (case-insensitive)? -/
def jsonTag : List Char → Bool
  | a :: b :: c :: d :: _ =>
      a.toLower = 'j' && b.toLower = 's' && c.toLower = 'o' && d.toLower = 'n'
  | _ => false

/-- Scan for the closing triple backtick; return the characters before it
(the lazy group `(.*?)`), or `none` when no closing fence exists. -/
def fenceClose : List Char → Option (List Char)
  | [] => none
  | c :: t =>
    if ticks3 (c :: t) then some []
    else (fenceClose t).map (fun g => c :: g)

/-- Given the text immediately after an opening triple backtick, consume
the optional `json` tag and the whitespace matched by `\s*\n?`, then find
the group up to the closing fence. -/
def fenceFrom (l : List Char) : Option (List Char) :=
  let l1 := if jsonTag l then l.drop 4 else l
  fenceClose (l1.dropWhile pyWs)

/-- Leftmost search for the fenced-code-block pattern; returns the
captured group of the first position at which the whole pattern
matches. -/
def pyFenceAux : List Char → Option (List Char)
  | [] => none
  | c :: t =>
    if ticks3 (c :: t) then
      match fenceFrom (t.drop 2) with
      | some g => some g
      | none => pyFenceAux t
    else pyFenceAux t

/-- Python `text.find(c)`: index of the first occurrence. -/
def findIdx (c : Char) : List Char → Option Nat
  | [] => none
  | x :: t => if x = c then some 0 else (findIdx c t).map (· + 1)

/-- Python `text.rfind(c)`: index of the last occurrence. -/
def rfindIdx (c : Char) (l : List Char) : Option Nat :=
  (findIdx c l.reverse).map (fun i => l.length - 1 - i)

/-- `extract_json_from_text` from `nova_client.py`: strip, return `""` on
empty, else the stripped interior of a fenced code block if one matches,
else the substring from the first `\x7b` to the last `\x7d` when both exist in
that order, else the stripped text. -/
def extract_json_from_text (text : String) : String :=
  let t := pyStrip text
  if t = "" then ""
  else
    match pyFenceAux t.data with
    | some g => pyStrip ⟨g⟩
    | none =>
      match findIdx '\x7b' t.data, rfindIdx '\x7d' t.data with
      | some s, some e =>
          if s ≤ e then ⟨(t.data.drop s).take (e + 1 - s)⟩ else t
      | _, _ => t

/-- The inner `parse` of `invoke_nova_json`: re-extract, treat an empty
extraction as failure, then schema-validate.  Schema validation
(`response_model.model_validate_json`) is abstracted as a caller-supplied
`validate` returning `none` on any parse or schema error. -/
def parseNova {α : Type} (validate : String → Option α)
    (text_to_parse : String) : Option α :=
  let cleaned := extract_json_from_text text_to_parse
  if cleaned = "" then none else validate cleaned

/-- The terminal error of the repair protocol (the source appends the
validation exception text after this prefix). -/
def SCHEMA_MISMATCH_ERROR : String :=
  "LLM response did not match schema after repair"

/-- Outcome of `invoke_nova_json`: the returned value or terminal error,
together with the number of model calls performed. -/
structure NovaJsonOutcome (α : Type) where
  result : Except String α
  model_calls : Nat

/-- `invoke_nova_json` from `nova_client.py` with the two network
responses abstracted: `firstRaw` is the text of the initial strict-JSON
call, `repairRaw` the text of the (at most one) repair call.  The
control flow is exactly the source's: extract + parse the first
response; on failure parse the repair response; on a second failure the
terminal schema-mismatch error. -/
def invoke_nova_json {α : Type} (firstRaw repairRaw : String)
    (validate : String → Option α) : NovaJsonOutcome α :=
  let text := extract_json_from_text firstRaw
  match parseNova validate text with
  | some t => ⟨.ok t, 1⟩
  | none =>
    match parseNova validate repairRaw with
    | some t => ⟨.ok t, 2⟩
    | none => ⟨.error SCHEMA_MISMATCH_ERROR, 2⟩

/-- Modelled from the spec (§4.3, claim C5): the extraction algorithm as
the spec states it — stages tried in order, first success wins.
Stage (1) succeeds when a fenced code block matches, producing its
(trimmed) interior; stage (2) succeeds when the text contains at least
one `\x7b` and at least one `\x7d` and the substring from the first `\x7b` to the
last `\x7d` exists (the last `\x7d` is not before the first `\x7b`); stage (3)
returns the trimmed text as-is. -/
def extract_spec_staged (text : String) : String :=
  let t := pyStrip text
  match pyFenceAux t.data with
  | some interior => pyStrip ⟨interior⟩
  | none =>
    match findIdx '\x7b' t.data, rfindIdx '\x7d' t.data with
    | some a, some b => if a ≤ b then ⟨(t.data.drop a).take (b + 1 - a)⟩ else t
    | _, _ => t

/-- A clean JSON object text (claim C8's hypothesis class): non-empty,
beginning with `\x7b` and ending with `\x7d` — hence already stripped — and
containing no markdown fence marker. -/
def isCleanJsonObjectText (s : String) : Prop :=
  s.data ≠ [] ∧ s.data.head? = some '\x7b' ∧ s.data.getLast? = some '\x7d' ∧
  ¬ (['\x60', '\x60', '\x60'] <:+: s.data)

/-!
## `app/llm/clinical_flow.py` — final assessment with quality repair

The two model calls (`invoke_nova_json` and
`repair_final_assessment_for_quality`) and the RAG citation lookup are
abstracted as oracles; the decision logic is the source's.
-/

/-- One conversation message (`{"role": ..., "content": ...}`; content is
modelled as plain text, the source's list-shaped-content unwrapping does
not apply). -/
structure Msg where
  role : String
  content : String
deriving DecidableEq, Repr

/-- `_last_user_content` from `clinical_flow.py`: the stripped content of
the latest user message, `""` if there is none. -/
def _last_user_content (messages : List Msg) : String :=
  match messages.reverse.find? (fun m => m.role = "user") with
  | some m => pyStrip m.content
  | none => ""

/-- The fallback symptom text `"User described symptoms."`. -/
def DEFAULT_SYMPTOM : String := "User described symptoms."

/-- `final_assessment` from `clinical_flow.py`, with the first model
response (`firstResp`), the quality-repair call (`regen`, receiving the
single user message that `repair_final_assessment_for_quality` builds)
and the RAG lookup (`cite`) abstracted.  Returns the assessment together
with the number of quality-regeneration calls performed. -/
def final_assessment (firstResp : FinalAssessmentResponse)
    (regen : Msg → FinalAssessmentResponse)
    (cite : List String → List Citation)
    (messages : List Msg) : FinalAssessmentResponse × Nat :=
  let lu := _last_user_content messages
  let last_user := if lu = "" then DEFAULT_SYMPTOM else lu
  let (resp, regenCalls) :=
    if _is_substantive firstResp then (firstResp, 0)
    else (regen ⟨"user", pyStrip last_user⟩, 1)
  ({ resp with citations := cite resp.sources_query }, regenCalls)

/-!
## `app/llm/bedrock_client.py` — retry loop of `invoke_nova`

The `client.converse` call is abstracted as an oracle from the attempt
number to either the response text or the kind of exception raised; the
`except (ClientError, BotoCoreError, OSError)` clause catches every one
of these kinds, so the loop structure is a fold over
`range(MAX_RETRIES)`.
-/

/-- The exception kinds caught by the retry loop.  `clientAuth` is a
`botocore` `ClientError` carrying a 401/403-equivalent authentication
failure (e.g. `AccessDeniedException`), `clientOther` any other
`ClientError`, plus `BotoCoreError` and `OSError` (timeouts and
connection failures). -/
inductive ProviderErrorKind where
  | clientAuth
  | clientOther
  | botoCore
  | osError
deriving DecidableEq, Repr

/-- `MAX_RETRIES` from `bedrock_client.py`. -/
def MAX_RETRIES : Nat := 3

/-- `invoke_nova` from `bedrock_client.py`: up to `MAX_RETRIES` attempts;
any caught exception before the last attempt sleeps and retries, the
last attempt re-raises.  Returns the outcome and the number of attempts
performed.  (The post-loop `return ""` is unreachable for
`MAX_RETRIES ≥ 1` and modelled as such.) -/
def invoke_nova_bedrock (oracle : Nat → Except ProviderErrorKind String) :
    Except ProviderErrorKind String × Nat :=
  let r := (List.range MAX_RETRIES).foldl
    (fun st attempt =>
      match st with
      | some out => some out
      | none =>
        match oracle attempt with
        | .ok s => some (.ok (pyStrip s), attempt + 1)
        | .error e =>
          if attempt < MAX_RETRIES - 1 then none
          else some (.error e, attempt + 1))
    none
  match r with
  | some out => out
  | none => (.ok "", MAX_RETRIES)

/-- The configuration error raised by `_get_client` in `nova_client.py`
when `NOVA_API_KEY` is missing. -/
def NOVA_KEY_ERROR : String :=
  "NOVA_API_KEY is required. Set it in the environment or .env."

/-- `invoke_nova` from `nova_client.py` (OpenAI-compatible client):
`apiKey` is the raw `NOVA_API_KEY` environment value (stripped before
the emptiness check, as at module level); `call b` is the provider call
with (`b = true`) or without the `response_format` option.  A missing
key raises the configuration error before any provider call; a provider
error whose text mentions `response_format` (when that option was set)
triggers the single capability fallback; every other error is re-raised
immediately.  Returns the outcome and the number of provider calls. -/
def invoke_nova_openai (apiKey : String) (response_format_set : Bool)
    (call : Bool → Except String String) :
    Except String String × Nat :=
  if pyStrip apiKey = "" then (.error NOVA_KEY_ERROR, 0)
  else
    match call response_format_set with
    | .ok content => (.ok (pyStrip content), 1)
    | .error e =>
      if response_format_set && pyIn "response_format" (pyLower e) then
        match call false with
        | .ok content => (.ok (pyStrip content), 2)
        | .error e2 => (.error e2, 2)
      else (.error e, 1)

/-!
## `services/api/main.py` — the `/chat` model-inference path

The second-turn-onward block wraps the whole model pipeline
(`final_assessment` → `apply_guardrails` → `render_assessment_markdown`)
in a `try`/`except` whose handler builds a fixed ROUTINE disclaimer
response.  The pipeline and the renderer are abstracted; the response
construction is the source's.
-/

/-- The `ChatResponse` model of `main.py`. -/
structure ChatResponse where
  reply : String
  conversation_id : Nat
  follow_up_questions : Option (List String)
  final_markdown : Option String
  risk_level : Option String
deriving DecidableEq, Repr

/-- Risk levels as the strings carried by `ChatResponse.risk_level`. -/
def riskLevelStr : RiskLevel → String
  | .EMERGENCY => "EMERGENCY"
  | .URGENT => "URGENT"
  | .ROUTINE => "ROUTINE"
  | .SELF_CARE => "SELF_CARE"

/-- The fixed fallback `reply` of the `except` handler in `chat`. -/
def MODEL_PATH_FALLBACK_REPLY : String :=
  "This is general information only, not medical advice. " ++
  "Consult a healthcare provider for your situation."

/-- The fixed fallback `final_markdown` of the `except` handler in
`chat` (the source file contains the mojibake bytes `â€”`
where an em dash was intended; they are reproduced verbatim). -/
def MODEL_PATH_FALLBACK_MARKDOWN : String :=
  "## Disclaimer\n\nThis is general information only, not medical advice. " ++
  "This system does not diagnose or prescribe. Always consult a qualified healthcare provider.\n\n" ++
  "## Risk level\n\n**ROUTINE** â€” A routine doctor visit is recommended when convenient.\n\n" ++
  "## When to seek care\n\n- If symptoms worsen or last more than a few days, see a doctor."

/-- The success-path `reply` of the model-inference block. -/
def CHAT_REPLY_OK : String :=
  "Here is information based on your description. This is not medical advice."

/-- The second-turn-onward model-inference block of `chat` in `main.py`:
`pipeline` is the outcome of the model pipeline (any raised, unrecovered
exception is its `error` case, carrying the exception text), `render` is
`render_assessment_markdown`.  On success the rendered assessment is
returned; on any exception the fixed ROUTINE fallback response. -/
def chat_model_path (conv_id : Nat)
    (pipeline : Except String GuardrailResult)
    (render : FinalAssessmentResponse → Option String → String) :
    ChatResponse :=
  match pipeline with
  | .ok result =>
    { reply := CHAT_REPLY_OK
      conversation_id := conv_id
      follow_up_questions := none
      final_markdown := some (render result.assessment result.emergency_message)
      risk_level := some (riskLevelStr result.assessment.risk_level) }
  | .error _ =>
    { reply := MODEL_PATH_FALLBACK_REPLY
      conversation_id := conv_id
      follow_up_questions := none
      final_markdown := some MODEL_PATH_FALLBACK_MARKDOWN
      risk_level := some "ROUTINE" }

/-!
## Concrete sample values (used by witness theorems)
-/

/-- Does a string avoid whitespace at both ends (so that Python `strip`
of a surrounding text cannot cut an occurrence of it)? -/
def noEdgeWs (p : String) : Bool :=
  (p.data.head?.elim false fun c => !pyWs c) &&
  (p.data.getLast?.elim false fun c => !pyWs c)

/-- A model assessment at ROUTINE, in the shape of the unit tests. -/
def sampleRoutineAssessment : FinalAssessmentResponse :=
  { risk_level := .ROUTINE
    summary := ["Point one", "Point two", "Point three"]
    possible_causes := ["Tension or dehydration."]
    home_care := ["Rest.", "Stay hydrated."]
    when_to_seek_care := ["If it worsens, see a doctor."]
    red_flags := ["model flag"]
    sources_query := ["headache"]
    citations := [⟨"kb", "https://example.org", "quoted text"⟩] }

/-- A model assessment already at EMERGENCY. -/
def sampleEmergencyAssessment : FinalAssessmentResponse :=
  { risk_level := .EMERGENCY
    summary := ["Point one", "Point two", "Point three"]
    possible_causes := []
    home_care := []
    when_to_seek_care := []
    red_flags := []
    sources_query := []
    citations := [] }

/-- A schema-valid but generic assessment: the summary carries the
generic-filler marker phrase, so the quality gate rejects it. -/
def sampleGenericAssessment : FinalAssessmentResponse :=
  { risk_level := .ROUTINE
    summary := ["General guidance provided.", "See a doctor.", "Rest."]
    possible_causes := ["a", "b"]
    home_care := ["c", "d", "e"]
    when_to_seek_care := []
    red_flags := []
    sources_query := []
    citations := [] }

/-- A substantive regenerated assessment. -/
def sampleRegeneratedAssessment : FinalAssessmentResponse :=
  { risk_level := .SELF_CARE
    summary := ["Likely tension headache.", "Missing: duration.", "Self-care below."]
    possible_causes := ["Tension", "Dehydration", "Eye strain"]
    home_care := ["Rest", "Hydrate", "Compress"]
    when_to_seek_care := ["If severe, seek care."]
    red_flags := ["Sudden worst headache"]
    sources_query := ["tension headache"]
    citations := [] }

/-!
## Helper lemmas
-/

/-- Dropping a whitespace prefix neither creates nor destroys occurrences
of a pattern that does not start with whitespace. -/
theorem infix_dropWhile_pyWs {p l : List Char}
    (hp : ∀ c, p.head? = some c → pyWs c = false) :
    p <:+: l.dropWhile pyWs ↔ p <:+: l := by
  constructor
  · intro h
    exact h.trans (List.dropWhile_suffix pyWs).isInfix
  · intro h
    induction l with
    | nil => simpa using h
    | cons c t ih =>
      rw [ List.dropWhile_cons]
      by_cases hc : pyWs c = true
      · rw [if_pos hc]
        rcases List.infix_cons_iff.mp h with hpre | hinf
        · cases p with
          | nil => exact List.nil_infix
          | cons q p' =>
            have hqc : q = c := (List.cons_prefix_cons.mp hpre).1
            have := hp q rfl
            rw [hqc, hc] at this
            exact absurd this (by simp)
        · exact ih hinf
      · rw [if_neg hc]
        exact h

/-- Python `strip` neither creates nor destroys occurrences of a pattern
with no whitespace at either end. -/
theorem infix_pyStripList {p l : List Char}
    (hh : ∀ c, p.head? = some c → pyWs c = false)
    (hl : ∀ c, p.getLast? = some c → pyWs c = false) :
    p <:+: pyStripList l ↔ p <:+: l := by
  unfold pyStripList
  have hrev : ∀ c, p.reverse.head? = some c → pyWs c = false := by
    intro c hc
    rw [ List.head?_reverse] at hc
    exact hl c hc
  calc p <:+: ((l.dropWhile pyWs).reverse.dropWhile pyWs).reverse
      ↔ p.reverse <:+: (l.dropWhile pyWs).reverse.dropWhile pyWs := by
        conv_lhs => rw [← List.reverse_reverse p]
        exact List.reverse_infix
    _ ↔ p.reverse <:+: (l.dropWhile pyWs).reverse := infix_dropWhile_pyWs hrev
    _ ↔ p <:+: l.dropWhile pyWs := List.reverse_infix
    _ ↔ p <:+: l := infix_dropWhile_pyWs hh

/-- `pyIn` is invariant under stripping the haystack when the needle has
no whitespace at either end. -/
theorem pyIn_pyStrip (p s : String) (h : noEdgeWs p = true) :
    pyIn p (pyStrip s) = pyIn p s := by
  have hh : ∀ c, p.data.head? = some c → pyWs c = false := by
    intro c hc
    have h' := h
    unfold noEdgeWs at h'
    rw [hc] at h'
    simp at h'
    simpa using h'.1
  have hl : ∀ c, p.data.getLast? = some c → pyWs c = false := by
    intro c hc
    have h' := h
    unfold noEdgeWs at h'
    rw [hc] at h'
    simp at h'
    simpa using h'.2
  unfold pyIn pyStrip
  exact decide_eq_decide.mpr (infix_pyStripList hh hl)

/-- If a pattern has no whitespace at either end, stripping the haystack
does not change Python `in`. -/
theorem dropWhile_pyWs_eq_self {l : List Char}
    (h : ∀ c, l.head? = some c → pyWs c = false) :
    l.dropWhile pyWs = l := by
  cases l with
  | nil => rfl
  | cons c t =>
    rw [ List.dropWhile_cons, if_neg]
    simp [h c rfl]

/-- `pyStripList` is the identity on lists with no whitespace at either
end. -/
theorem pyStripList_eq_self {l : List Char}
    (hh : ∀ c, l.head? = some c → pyWs c = false)
    (hl : ∀ c, l.getLast? = some c → pyWs c = false) :
    pyStripList l = l := by
  unfold pyStripList
  rw [dropWhile_pyWs_eq_self hh, dropWhile_pyWs_eq_self, List.reverse_reverse]
  intro c hc
  rw [ List.head?_reverse] at hc
  exact hl c hc

/-- A successful fence search implies the text contains a triple
backtick. -/
theorem pyFenceAux_some_ticks {l : List Char} {g : List Char}
    (h : pyFenceAux l = some g) : ['\x60', '\x60', '\x60'] <:+: l := by
  induction l with
  | nil => simp [pyFenceAux] at h
  | cons c t ih =>
    rw [pyFenceAux] at h
    by_cases hti : ticks3 (c :: t) = true
    · rw [if_pos hti] at h
      have hpre : ['\x60', '\x60', '\x60'] <+: c :: t := by
        unfold ticks3 at hti
        split at hti
        · next heq => exact ⟨_, by rw [heq]; rfl⟩
        · exact absurd hti (by simp)
      exact hpre.isInfix
    · rw [if_neg hti] at h
      exact List.infix_cons (ih h)

/-- If the text contains no triple backtick, the fence search fails. -/
theorem pyFenceAux_eq_none {l : List Char}
    (h : ¬ (['\x60', '\x60', '\x60'] <:+: l)) : pyFenceAux l = none := by
  cases hf : pyFenceAux l with
  | none => rfl
  | some g => exact absurd (pyFenceAux_some_ticks hf) h

/-!
## Claim theorems
-/

/-- C1: for every user text `T` and model assessment `A`, if red-flag
detection on `T` reports a hit, then `apply_guardrails T A` returns an
assessment whose risk level is EMERGENCY regardless of `A`'s own risk
level, with summary and when-to-seek-care replaced by the fixed
emergency-override content, red flags the deduplicated matched-first
union, and a non-null emergency message. -/
theorem guardrails_red_flag_hit_forces_emergency (T : String)
    (A : FinalAssessmentResponse)
    (h : (check_red_flags T).hit = true) :
    (apply_guardrails T A).assessment.risk_level = RiskLevel.EMERGENCY ∧
    (apply_guardrails T A).assessment.summary = EMERGENCY_OVERRIDE_SUMMARY ∧
    (apply_guardrails T A).assessment.when_to_seek_care =
      EMERGENCY_OVERRIDE_WHEN_TO_SEEK ∧
    (apply_guardrails T A).assessment.red_flags =
      pyDictFromKeys ((check_red_flags T).matched_terms ++ A.red_flags) ∧
    (apply_guardrails T A).emergency_message = some EMERGENCY_DISCLAIMER := by
  simp [apply_guardrails, h]

/-- Witness for C1: the concrete red-flag text "chest pain" against a
ROUTINE model assessment is forced to EMERGENCY. -/
theorem guardrails_red_flag_hit_forces_emergency_witness :
    (check_red_flags "chest pain").hit = true ∧
    (apply_guardrails "chest pain" sampleRoutineAssessment).assessment.risk_level
      = RiskLevel.EMERGENCY :=
  ⟨by decide,
   (guardrails_red_flag_hit_forces_emergency "chest pain"
     sampleRoutineAssessment (by decide)).1⟩

/-- C2: for every assessment `A` and user text `T` with no red-flag hit,
`apply_guardrails T A` returns `A` itself unchanged with a null emergency
message and empty matched terms; in particular an already-EMERGENCY risk
level stays exactly as it was. -/
theorem guardrails_no_hit_returns_model_result (T : String)
    (A : FinalAssessmentResponse)
    (h : (check_red_flags T).hit = false) :
    apply_guardrails T A =
      { assessment := A, emergency_message := none, matched_terms := [] } ∧
    (apply_guardrails T A).assessment.risk_level = A.risk_level := by
  simp [apply_guardrails, h]

/-- Witness for C2: the concrete benign text "I have a mild headache"
with a model assessment already at EMERGENCY passes through unchanged
with no emergency message. -/
theorem guardrails_no_hit_returns_model_result_witness :
    (check_red_flags "I have a mild headache").hit = false ∧
    apply_guardrails "I have a mild headache" sampleEmergencyAssessment =
      { assessment := sampleEmergencyAssessment, emergency_message := none,
        matched_terms := [] } :=
  ⟨by decide,
   (guardrails_no_hit_returns_model_result "I have a mild headache"
     sampleEmergencyAssessment (by decide)).1⟩

/-- C10: when the guardrail override fires, only risk level, summary,
when-to-seek-care and red flags change; possible causes, home care,
sources query and citations are returned exactly as in the model
assessment. -/
theorem guardrails_override_frame_condition (T : String)
    (A : FinalAssessmentResponse)
    (h : (check_red_flags T).hit = true) :
    (apply_guardrails T A).assessment.possible_causes = A.possible_causes ∧
    (apply_guardrails T A).assessment.home_care = A.home_care ∧
    (apply_guardrails T A).assessment.sources_query = A.sources_query ∧
    (apply_guardrails T A).assessment.citations = A.citations := by
  simp [apply_guardrails, h]

/-- Witness for C10: on the red-flag text "severe bleeding" the override
fires and the citations of the model assessment are preserved. -/
theorem guardrails_override_frame_condition_witness :
    (check_red_flags "severe bleeding").hit = true ∧
    (apply_guardrails "severe bleeding" sampleRoutineAssessment).assessment.citations
      = sampleRoutineAssessment.citations :=
  ⟨by decide,
   (guardrails_override_frame_condition "severe bleeding"
     sampleRoutineAssessment (by decide)).2.2.2⟩

/-- The empty string has no characters. -/
theorem string_empty_data : ("" : String).data = [] := rfl

/-- C3: for every pair of raw model texts, the JSON
extraction-validation-repair protocol makes at least one and at most two
model calls (hence at most one repair call) and terminates either with a
validated object — from the first pass or from the single repair — or
with the terminal schema-mismatch error after the repair output also
fails; there is never a second repair attempt. -/
theorem nova_json_repair_at_most_one_repair (α : Type)
    (firstRaw repairRaw : String) (validate : String → Option α) :
    1 ≤ (invoke_nova_json firstRaw repairRaw validate).model_calls ∧
    (invoke_nova_json firstRaw repairRaw validate).model_calls ≤ 2 ∧
    ((∃ t, (invoke_nova_json firstRaw repairRaw validate).result = Except.ok t ∧
       ((parseNova validate (extract_json_from_text firstRaw) = some t ∧
         (invoke_nova_json firstRaw repairRaw validate).model_calls = 1) ∨
        (parseNova validate (extract_json_from_text firstRaw) = none ∧
         parseNova validate repairRaw = some t ∧
         (invoke_nova_json firstRaw repairRaw validate).model_calls = 2))) ∨
     ((invoke_nova_json firstRaw repairRaw validate).result =
        Except.error SCHEMA_MISMATCH_ERROR ∧
      parseNova validate (extract_json_from_text firstRaw) = none ∧
      parseNova validate repairRaw = none ∧
      (invoke_nova_json firstRaw repairRaw validate).model_calls = 2)) := by
  cases h1 : parseNova validate (extract_json_from_text firstRaw) with
  | some t => simp [invoke_nova_json, h1]
  | none =>
    cases h2 : parseNova validate repairRaw with
    | some t => simp [invoke_nova_json, h1, h2]
    | none => simp [invoke_nova_json, h1, h2]

/-- C4: on the model-inference path, any unrecovered pipeline error makes
the endpoint return the fixed pre-written response — ROUTINE risk level
and the fixed disclaimer markdown — never a raw error, whatever the
exception text and whatever the renderer would have produced. -/
theorem chat_model_path_error_returns_fixed_fallback (conv_id : Nat)
    (err : String)
    (render : FinalAssessmentResponse → Option String → String) :
    chat_model_path conv_id (Except.error err) render =
      { reply := MODEL_PATH_FALLBACK_REPLY
        conversation_id := conv_id
        follow_up_questions := none
        final_markdown := some MODEL_PATH_FALLBACK_MARKDOWN
        risk_level := some "ROUTINE" } := rfl

/-- C5: JSON extraction applies the staged algorithm — fenced code block
interior first, else the brace-delimited substring when it exists, else
the trimmed text — with first success winning, and the caller's `parse`
treats an empty extraction result as failure. -/
theorem extraction_stage_order (text : String) :
    extract_json_from_text text = extract_spec_staged text ∧
    (∀ (α : Type) (validate : String → Option α),
      parseNova validate text = none ↔
        (extract_json_from_text text = "" ∨
         validate (extract_json_from_text text) = none)) := by
  constructor
  · by_cases h : pyStrip text = ""
    · simp [extract_json_from_text, extract_spec_staged, h,
            string_empty_data, pyFenceAux, findIdx, rfindIdx]
    · simp [extract_json_from_text, extract_spec_staged, h]
  · intro α validate
    by_cases h : extract_json_from_text text = ""
    · simp [parseNova, h]
    · simp [parseNova, h]

/-- C6: the quality gate rejects a schema-valid assessment iff the
concatenated summary contains the generic-filler marker, or there are
fewer than 2 possible causes, or fewer than 3 home-care items; on
rejection exactly one regeneration call is made, on the user's latest
symptom text alone, and its result replaces the original unconditionally
(no quality re-check); without rejection no regeneration happens. -/
theorem quality_gate_reject_iff_single_regen
    (first : FinalAssessmentResponse) (regen : Msg → FinalAssessmentResponse)
    (cite : List String → List Citation) (messages : List Msg) :
    (_is_substantive first = false ↔
      (pyIn GENERIC_FILLER_MARKER (pyLower (pyJoinSpace first.summary)) = true ∨
       first.possible_causes.length < 2 ∨ first.home_care.length < 3)) ∧
    (_is_substantive first = true →
      final_assessment first regen cite messages =
        ({ first with citations := cite first.sources_query }, 0)) ∧
    (_is_substantive first = false →
      final_assessment first regen cite messages =
        (let r := regen ⟨"user",
            pyStrip (if _last_user_content messages = "" then DEFAULT_SYMPTOM
                     else _last_user_content messages)⟩
         ({ r with citations := cite r.sources_query }, 1))) := by
  refine ⟨?_, ?_, ?_⟩
  · simp only [_is_substantive]
    split_ifs with h1 h2 h3 <;> simp_all
  · intro h
    simp [final_assessment, h]
  · intro h
    simp [final_assessment, h]

/-- Witness for C6: a generic assessment (its summary contains the
filler marker) is rejected and replaced by the single regeneration
call's result, unconditionally. -/
theorem quality_gate_reject_iff_single_regen_witness :
    _is_substantive sampleGenericAssessment = false ∧
    final_assessment sampleGenericAssessment
        (fun _ => sampleRegeneratedAssessment) (fun _ => [])
        [⟨"user", " headache for two days "⟩] =
      ({ sampleRegeneratedAssessment with citations := [] }, 1) :=
  ⟨by decide,
   by
    exact (quality_gate_reject_iff_single_regen sampleGenericAssessment
      (fun _ => sampleRegeneratedAssessment) (fun _ => [])
      [⟨"user", " headache for two days "⟩]).2.2 (by decide)⟩

/-- C7 counterexample: the Bedrock client's retry loop does retry
authentication failures.  With an oracle raising a 401/403-equivalent
`ClientError` on every attempt, `invoke_nova` performs all
`MAX_RETRIES = 3` attempts before surfacing the error, instead of
surfacing it immediately after one attempt as the claim states. -/
theorem bedrock_auth_failure_retried_counterexample :
    (invoke_nova_bedrock (fun _ => Except.error ProviderErrorKind.clientAuth)).2 = 3 ∧
    (invoke_nova_bedrock (fun _ => Except.error ProviderErrorKind.clientAuth)).1 =
      Except.error ProviderErrorKind.clientAuth :=
  ⟨rfl, rfl⟩

/-- C7 amended: the Bedrock retry loop treats every caught provider
error — authentication failures included — uniformly, retrying up to
`MAX_RETRIES` attempts; only the missing-credential check of the
OpenAI-compatible Nova client is surfaced immediately as a configuration
error with no provider call, and in that client any provider error not
triggering the `response_format` capability fallback (authentication
errors in particular) is re-raised after exactly one call. -/
theorem provider_error_retry_policy
    (k : ProviderErrorKind) (apiKey : String)
    (call : Bool → Except String String) (e : String)
    (hkey : pyStrip apiKey ≠ "")
    (hrf : pyIn "response_format" (pyLower e) = false)
    (hcall : call true = Except.error e) :
    invoke_nova_bedrock (fun _ => Except.error k) = (Except.error k, MAX_RETRIES) ∧
    (∀ (rf : Bool) (c : Bool → Except String String),
       invoke_nova_openai "" rf c = (Except.error NOVA_KEY_ERROR, 0)) ∧
    invoke_nova_openai apiKey true call = (Except.error e, 1) := by
  refine ⟨by cases k <;> rfl, fun rf c => rfl, ?_⟩
  simp [invoke_nova_openai, hkey, hcall, hrf]

/-- Witness for C7's amended theorem: a configured key together with a
provider call failing with a 401-style message is surfaced after exactly
one call, never retried. -/
theorem provider_error_retry_policy_witness :
    pyStrip "key" ≠ "" ∧
    pyIn "response_format" (pyLower "401 Unauthorized: invalid credentials") = false ∧
    invoke_nova_openai "key" true
        (fun _ => Except.error "401 Unauthorized: invalid credentials") =
      (Except.error "401 Unauthorized: invalid credentials", 1) :=
  ⟨by decide, by decide,
   (provider_error_retry_policy ProviderErrorKind.clientAuth "key"
      (fun _ => Except.error "401 Unauthorized: invalid credentials")
      "401 Unauthorized: invalid credentials"
      (by decide) (by decide) rfl).2.2⟩

/-- C8: on an already-clean JSON object text extraction is the identity,
hence idempotent: `extract (extract s) = extract s`. -/
theorem extract_idempotent_on_clean_json (s : String)
    (h : isCleanJsonObjectText s) :
    extract_json_from_text s = s ∧
    extract_json_from_text (extract_json_from_text s) =
      extract_json_from_text s := by
  obtain ⟨hne, hhead, hlast, hfence⟩ := h
  have hh : ∀ c, s.data.head? = some c → pyWs c = false := by
    intro c hc
    rw [hhead] at hc
    cases Option.some.inj hc
    decide
  have hl : ∀ c, s.data.getLast? = some c → pyWs c = false := by
    intro c hc
    rw [hlast] at hc
    cases Option.some.inj hc
    decide
  have hstrip : pyStrip s = s := by
    unfold pyStrip
    rw [pyStripList_eq_self hh hl]
  have hsne : s ≠ "" := by
    intro he
    exact hne (by rw [he])
  have hfe : pyFenceAux s.data = none := pyFenceAux_eq_none hfence
  obtain ⟨t0, hs0⟩ : ∃ t0, s.data = '\x7b' :: t0 := by
    cases hd : s.data with
    | nil => exact absurd hd hne
    | cons c t =>
      rw [hd] at hhead
      simp at hhead
      exact ⟨t, by rw [hhead]⟩
  have hfind : findIdx '\x7b' s.data = some 0 := by
    rw [hs0]; simp [findIdx]
  obtain ⟨t1, hs1⟩ : ∃ t1, s.data.reverse = '\x7d' :: t1 := by
    have hrh : s.data.reverse.head? = some '\x7d' := by
      rw [ List.head?_reverse]; exact hlast
    cases hr : s.data.reverse with
    | nil => rw [hr] at hrh; simp at hrh
    | cons c t =>
      rw [hr] at hrh
      simp at hrh
      exact ⟨t, by rw [hrh]⟩
  have hrfind : rfindIdx '\x7d' s.data = some (s.data.length - 1) := by
    unfold rfindIdx
    rw [hs1]
    simp [findIdx]
  have hlen : s.data.length - 1 + 1 - 0 = s.data.length := by
    have : 0 < s.data.length := List.length_pos.mpr hne
    omega
  have hext : extract_json_from_text s = s := by
    simp only [extract_json_from_text, hstrip, if_neg hsne, hfe, hfind, hrfind]
    rw [if_pos (Nat.zero_le _), List.drop_zero, hlen, List.take_length]
  exact ⟨hext, by rw [hext]; exact hext⟩

/-- Witness for C8: a concrete clean JSON object text is a fixed point
of extraction. -/
theorem extract_idempotent_on_clean_json_witness :
    isCleanJsonObjectText "\x7b\"risk_level\": \"ROUTINE\"\x7d" ∧
    extract_json_from_text "\x7b\"risk_level\": \"ROUTINE\"\x7d" =
      "\x7b\"risk_level\": \"ROUTINE\"\x7d" :=
  ⟨by unfold isCleanJsonObjectText; decide,
   (extract_idempotent_on_clean_json "\x7b\"risk_level\": \"ROUTINE\"\x7d"
     (by unfold isCleanJsonObjectText; decide)).1⟩

/-- `pySortedSet` yields an empty list exactly on empty input. -/
theorem pySortedSet_ne_nil_iff (l : List String) :
    pySortedSet l ≠ [] ↔ l ≠ [] := by
  unfold pySortedSet
  have hlen := (List.perm_insertionSort strDataLe l.dedup).length_eq
  constructor
  · intro h hl
    apply h
    rw [hl]
    rfl
  · intro h hs
    apply h
    apply (List.dedup_eq_nil _).mp
    apply List.length_eq_zero.mp
    rw [← hlen, hs]
    rfl

/-- C9: red-flag detection is a pure function of the text whose matched
terms are sorted and deduplicated, non-empty exactly when some configured
phrase occurs (case-insensitively) in the text, and whose hit
classification (self-harm or emergency-medical) is an OR over all
configured phrases. -/
theorem detect_red_flags_contract (text : String) :
    List.Sorted strDataLe (detect_red_flags text).matched_terms ∧
    (detect_red_flags text).matched_terms.Nodup ∧
    ((detect_red_flags text).matched_terms ≠ [] ↔
      ∃ p ∈ self_harm_terms ++ emergency_terms, pyIn p (pyLower text) = true) ∧
    (((detect_red_flags text).is_self_harm ||
        (detect_red_flags text).is_emergency_medical) = true ↔
      ∃ p ∈ self_harm_terms ++ emergency_terms, pyIn p (pyLower text) = true) ∧
    (((detect_red_flags text).is_self_harm ||
        (detect_red_flags text).is_emergency_medical) = true ↔
      (detect_red_flags text).matched_terms ≠ []) := by
  have hedge : ∀ p ∈ self_harm_terms ++ emergency_terms, noEdgeWs p = true := by
    decide
  have hconv : ∀ p ∈ self_harm_terms ++ emergency_terms,
      pyIn p (pyStrip (pyLower text)) = pyIn p (pyLower text) := fun p hp =>
    pyIn_pyStrip p (pyLower text) (hedge p hp)
  have hm : (detect_red_flags text).matched_terms =
      pySortedSet ((self_harm_terms ++ emergency_terms).filter
        (fun p => pyIn p (pyStrip (pyLower text)))) := rfl
  have hsh : (detect_red_flags text).is_self_harm =
      self_harm_terms.any (fun p => pyIn p (pyStrip (pyLower text))) := rfl
  have hem : (detect_red_flags text).is_emergency_medical =
      emergency_terms.any (fun p => pyIn p (pyStrip (pyLower text))) := rfl
  have h3 : (detect_red_flags text).matched_terms ≠ [] ↔
      ∃ p ∈ self_harm_terms ++ emergency_terms, pyIn p (pyLower text) = true := by
    rw [hm, pySortedSet_ne_nil_iff, Ne, List.filter_eq_nil_iff]
    push_neg
    constructor
    · rintro ⟨p, hp, hf⟩
      exact ⟨p, hp, by rw [← hconv p hp]; simpa using hf⟩
    · rintro ⟨p, hp, hf⟩
      exact ⟨p, hp, by simp [hconv p hp, hf]⟩
  have h4 : ((detect_red_flags text).is_self_harm ||
      (detect_red_flags text).is_emergency_medical) = true ↔
      ∃ p ∈ self_harm_terms ++ emergency_terms, pyIn p (pyLower text) = true := by
    rw [hsh, hem, ← List.any_append, List.any_eq_true]
    constructor
    · rintro ⟨p, hp, hf⟩
      exact ⟨p, hp, by rw [← hconv p hp]; exact hf⟩
    · rintro ⟨p, hp, hf⟩
      exact ⟨p, hp, by rw [hconv p hp]; exact hf⟩
  refine ⟨?_, ?_, h3, h4, h4.trans h3.symm⟩
  · rw [hm]
    exact List.sorted_insertionSort strDataLe _
  · rw [hm]
    exact ((List.perm_insertionSort strDataLe _).nodup_iff).mpr
      (List.nodup_dedup _)

end AiDoctor
